import Mathlib

/-!
Verification of the Guardian taxonomy import and cross-reference engine.

Shallow embedding of the subsystem under `schema/` (the repository package):
the CVSS calculator (`schema/tagging/cvss.py`), the VRT side-file resolver
`get_vrt_mapping`, the VRT leaf lookup `get_vrt`
(`schema/tagging/bugcrowd_vrt.py`), the VRT import
(`import_vrt_categories` and `_create_vrt` in `schema/__init__.py`), and the
CWE weakness/category imports (`import_cwe_weaknesses`,
`import_cwe_categories`).

Modelling conventions:
- Machine floats of the source become rationals.
- Database sessions become an explicit record of table contents; a freshly
  inserted row receives the next numeric identifier (standing in for the
  server-generated UUID).  `session.add` followed by the pervasive
  `session.flush` is modelled as an immediate, visible insert.
- Fallible code returns `Except String`; the string names the Python
  exception raised at the corresponding place.
- Python truthiness tests (`if priority:`, `if not vector:`, `if value else
  fallback`) are modelled by explicit truthiness functions on `Option`,
  strings and lists, mirroring the source exactly.
- The two uniqueness constraints whose violations the source hits at an
  immediately following `session.flush` are checked at insert time: the
  `Vrt` composite natural key declared with `postgresql_nulls_not_distinct`
  and the `VrtCweMapping` primary key `(cwe_base_id, vrt_id)`.
-/

namespace Guardian

/-- Severity buckets of `schema.util.SeverityType`. -/
inductive SeverityType where
  | info
  | low
  | medium
  | high
  | critical
deriving DecidableEq, Repr, Inhabited

/-! ## CVSS calculator (`schema/tagging/cvss.py`) -/

/-- Model of `vector.lower().startswith(p)` with `p` already lower-case:
the characters of `p` are a prefix of the lower-cased characters of `s`. -/
def lowerStartsWith (s : String) (p : String) : Bool :=
  p.data.isPrefixOf (s.data.map Char.toLower)

/-- Model of `Cvss.calculate_base_score`.  The scoring formulas of the
external `cvss` library (`CVSS3(vector).base_score`, `CVSS4(...)`) are
abstracted as the function parameters `score3` and `score4`; the version
dispatch and the `ValueError` for unknown prefixes follow the source. -/
def calculate_base_score (score3 score4 : String → ℚ) (vector : String) :
    Except String ℚ :=
  if lowerStartsWith vector "cvss:3" then .ok (score3 vector)
  else if lowerStartsWith vector "cvss:4" then .ok (score4 vector)
  else .error "ValueError: Unknown CVSS version"

/-- Model of `Cvss.calculate_base_severity` on a numeric score. -/
def calculate_base_severity (value : ℚ) : Option SeverityType :=
  if value = 0 then none
  else if value < 4 then some .low
  else if value < 7 then some .medium
  else if value < 9 then some .high
  else some .critical

/-- Transient CVSS value object produced by `Cvss.create_cvss3` before
persistence: the fields `base_score`, `base_severity`, `base_vector`. -/
structure CvssValue where
  base_score : ℚ
  base_severity : Option SeverityType
  base_vector : String
deriving DecidableEq, Repr, Inhabited

/-- Model of `Cvss.create_cvss3`: `None` or the empty string yield no
object (`if not vector`); a vector whose lower-case form starts with
`cvss:3` is used verbatim, anything else is prefixed with `CVSS:3.1/`. -/
def create_cvss3 (score3 score4 : String → ℚ) (vector : Option String) :
    Except String (Option CvssValue) :=
  match vector with
  | none => .ok none
  | some v =>
    if v = "" then .ok none
    else
      let result := if lowerStartsWith v "cvss:3" then v else "CVSS:3.1/" ++ v
      match calculate_base_score score3 score4 result with
      | .error e => .error e
      | .ok base_score =>
          .ok (some { base_score := base_score
                      base_severity := calculate_base_severity base_score
                      base_vector := result })

/-- Helper: the normalized string always passes the version check. -/
theorem lowerStartsWith_prefixed (v : String) :
    lowerStartsWith ("CVSS:3.1/" ++ v) "cvss:3" = true := by
  unfold lowerStartsWith
  rw [String.data_append, List.map_append, List.isPrefixOf_iff_prefix]
  have h1 : "cvss:3".data <+: ("CVSS:3.1/".data.map Char.toLower) := by decide
  exact h1.trans (List.prefix_append _ _)

/-- Claim C7: `calculate_base_severity` returns no severity exactly when the
score is 0, maps the bracket `[0.1, 4)` to low, `[4, 7)` to medium,
`[7, 9)` to high and `[9, 10]` to critical, and the severity flips exactly
at the boundaries 3.9 / 4.0, 6.9 / 7.0 and 8.9 / 9.0. -/
theorem base_severity_brackets (q : ℚ) :
    (calculate_base_severity q = none ↔ q = 0) ∧
    (1/10 ≤ q → q < 4 → calculate_base_severity q = some .low) ∧
    (4 ≤ q → q < 7 → calculate_base_severity q = some .medium) ∧
    (7 ≤ q → q < 9 → calculate_base_severity q = some .high) ∧
    (9 ≤ q → q ≤ 10 → calculate_base_severity q = some .critical) ∧
    calculate_base_severity (39/10) = some .low ∧
    calculate_base_severity 4 = some .medium ∧
    calculate_base_severity (69/10) = some .medium ∧
    calculate_base_severity 7 = some .high ∧
    calculate_base_severity (89/10) = some .high ∧
    calculate_base_severity 9 = some .critical := by
  unfold calculate_base_severity
  refine ⟨?_, ?_, ?_, ?_, ?_, ?_, ?_, ?_, ?_, ?_, ?_⟩
  · split_ifs with h0 h4 h7 h9 <;> simp_all
  · intro h1 h2
    split_ifs with h0 h4 <;> first | rfl | linarith
  · intro h1 h2
    split_ifs with h0 h4 h7 <;> first | rfl | linarith
  · intro h1 h2
    split_ifs with h0 h4 h7 h9 <;> first | rfl | linarith
  · intro h1 h2
    split_ifs with h0 h4 h7 h9 <;> first | rfl | linarith
  all_goals norm_num

/-- Witness for C7 at the boundary inputs 3.9 and 9. -/
theorem base_severity_brackets_witness :
    calculate_base_severity (39/10) = some SeverityType.low ∧
    calculate_base_severity 9 = some SeverityType.critical :=
  ⟨(base_severity_brackets (39/10)).2.1 (by norm_num) (by norm_num),
   (base_severity_brackets 9).2.2.2.2.1 (by norm_num) (by norm_num)⟩

/-- Claim C8: for any scoring oracle, a non-empty vector whose lower-case
form does not start with `cvss:3` is stored as `CVSS:3.1/` plus the input,
scored on that fully qualified string, and yields the very same value
object as passing the fully qualified string directly; a vector already
starting with `cvss:3` is used verbatim; an absent or empty vector yields
no object. -/
theorem create_cvss3_normalizes (score3 score4 : String → ℚ) :
    (∀ v : String, v ≠ "" → lowerStartsWith v "cvss:3" = false →
      create_cvss3 score3 score4 (some v) =
        .ok (some { base_score := score3 ("CVSS:3.1/" ++ v)
                    base_severity :=
                      calculate_base_severity (score3 ("CVSS:3.1/" ++ v))
                    base_vector := "CVSS:3.1/" ++ v }) ∧
      create_cvss3 score3 score4 (some v) =
        create_cvss3 score3 score4 (some ("CVSS:3.1/" ++ v))) ∧
    (∀ w : String, lowerStartsWith w "cvss:3" = true →
      create_cvss3 score3 score4 (some w) =
        .ok (some { base_score := score3 w
                    base_severity := calculate_base_severity (score3 w)
                    base_vector := w })) ∧
    create_cvss3 score3 score4 none = .ok none ∧
    create_cvss3 score3 score4 (some "") = .ok none := by
  have hne : ∀ v : String, ("CVSS:3.1/" ++ v) ≠ "" := by
    intro v h
    have := congrArg String.data h
    rw [String.data_append] at this
    simp at this
  refine ⟨?_, ?_, rfl, rfl⟩
  · intro v hv hpre
    have hq := lowerStartsWith_prefixed v
    constructor
    · simp only [create_cvss3, calculate_base_score, hv, hpre, hq,
        if_false, if_true, Bool.false_eq_true, ite_false, ite_true]
    · simp only [create_cvss3, calculate_base_score, hv, hpre, hq,
        hne v, if_false, if_true, Bool.false_eq_true, ite_false, ite_true]
  · intro w hw
    have hwne : w ≠ "" := by
      intro h
      subst h
      simp [lowerStartsWith] at hw
    simp only [create_cvss3, calculate_base_score, hw, hwne,
      if_false, if_true, ite_true, ite_false]

/-- Witness for C8 at the bare metric vector of the spec scenario. -/
theorem create_cvss3_normalizes_witness :
    create_cvss3 (fun _ => 98/10) (fun _ => 0)
        (some "AV:N/AC:L/PR:N/UI:N/S:U/C:H/I:H/A:H") =
      .ok (some { base_score := 98/10
                  base_severity := calculate_base_severity (98/10)
                  base_vector :=
                    "CVSS:3.1/AV:N/AC:L/PR:N/UI:N/S:U/C:H/I:H/A:H" }) :=
  ((create_cvss3_normalizes (fun _ => 98/10) (fun _ => 0)).1
    "AV:N/AC:L/PR:N/UI:N/S:U/C:H/I:H/A:H" (by decide) (by decide)).1

/-! ## VRT side files and `get_vrt_mapping` (`schema/__init__.py`) -/

/-- A JSON value stored under a side-file key: the CVSS side file keeps a
vector string under `cvss_v3`, the CWE side file keeps a list of reference
strings under `cwe`. -/
inductive SVal where
  | str (s : String)
  | list (l : List String)
deriving DecidableEq, Repr, Inhabited

/-- Python truthiness of a side value: empty strings and lists are falsy. -/
def SVal.truthy : SVal → Bool
  | .str s => s ≠ ""
  | .list l => l ≠ []

/-- Python truthiness of an optional side value (`None` is falsy). -/
def truthyO : Option SVal → Bool
  | none => false
  | some v => v.truthy

/-- Innermost side-file entry; `get_vrt_mapping` never reads children of a
variant entry. -/
structure SideVariant where
  id : String
  values : List (String × SVal)
deriving DecidableEq, Repr, Inhabited

/-- Middle-level side-file entry; `children` is `none` when the JSON object
has no `children` key at all. -/
structure SideSubCategory where
  id : String
  values : List (String × SVal)
  children : Option (List SideVariant)
deriving DecidableEq, Repr, Inhabited

/-- Top-level side-file entry of the `content` list. -/
structure SideCategory where
  id : String
  values : List (String × SVal)
  children : Option (List SideSubCategory)
deriving DecidableEq, Repr, Inhabited

/-- Model of Python `entry.get(key)` on the remaining keys of an entry. -/
def lookupVal (vals : List (String × SVal)) (key : String) : Option SVal :=
  (vals.find? (fun p => p.1 == key)).map (·.2)

/-- Model of `get_vrt_mapping`.  The source receives the `VrtCategory`,
`VrtSubCategory` and `VrtVariant` rows and only reads their `vrt_id`
fields, so the model takes the identifiers directly; a `none` identifier
models passing `None`.  Sibling lists are matched by `id`; more than one
match raises `MultipleResultsFound`; a deeper value that is Python-falsy
falls back to the value resolved one level up. -/
def getVrtMapping (json_object : List SideCategory) (categoryId : String)
    (subCategoryId : Option String) (variantId : Option String)
    (key : String) : Except String (Option SVal) :=
  match json_object.filter (fun item => item.id == categoryId) with
  | [] => .ok none
  | [category] =>
    let categoryVector := lookupVal category.values key
    match subCategoryId with
    | none => .ok categoryVector
    | some sid =>
      match category.children with
      | none => .ok categoryVector
      | some cch =>
        match cch.filter (fun item => item.id == sid) with
        | [] => .ok categoryVector
        | [subCategory] =>
          let rawSub := lookupVal subCategory.values key
          let subCategoryVector :=
            if truthyO rawSub then rawSub else categoryVector
          match variantId with
          | none => .ok subCategoryVector
          | some vid =>
            match subCategory.children with
            | none => .ok subCategoryVector
            | some sch =>
              match sch.filter (fun item => item.id == vid) with
              | [] => .ok subCategoryVector
              | [variant] =>
                let rawVar := lookupVal variant.values key
                .ok (if truthyO rawVar then rawVar else subCategoryVector)
              | _ => .error "MultipleResultsFound: variant_id"
        | _ => .error "MultipleResultsFound: sub_category_id"
  | _ => .error "MultipleResultsFound: category_id"

/-- True exactly when a sibling list that `get_vrt_mapping` actually
descends into contains the requested identifier more than once. -/
def ambiguousPath (json_object : List SideCategory) (categoryId : String)
    (subCategoryId : Option String) (variantId : Option String) : Bool :=
  match json_object.filter (fun item => item.id == categoryId) with
  | [] => false
  | [category] =>
    match subCategoryId with
    | none => false
    | some sid =>
      match category.children with
      | none => false
      | some cch =>
        match cch.filter (fun item => item.id == sid) with
        | [] => false
        | [subCategory] =>
          match variantId with
          | none => false
          | some vid =>
            match subCategory.children with
            | none => false
            | some sch =>
              match sch.filter (fun item => item.id == vid) with
              | [] => false
              | [_] => false
              | _ => true
        | _ => true
  | _ => true

/-- The raw values for `key` at the levels `get_vrt_mapping` visits, from
category to variant. -/
def visitedVals (json_object : List SideCategory) (categoryId : String)
    (subCategoryId : Option String) (variantId : Option String)
    (key : String) : List (Option SVal) :=
  match json_object.filter (fun item => item.id == categoryId) with
  | [] => []
  | [category] =>
    lookupVal category.values key ::
      (match subCategoryId with
       | none => []
       | some sid =>
         match category.children with
         | none => []
         | some cch =>
           match cch.filter (fun item => item.id == sid) with
           | [] => []
           | [subCategory] =>
             lookupVal subCategory.values key ::
               (match variantId with
                | none => []
                | some vid =>
                  match subCategory.children with
                  | none => []
                  | some sch =>
                    match sch.filter (fun item => item.id == vid) with
                    | [] => []
                    | [variant] => [lookupVal variant.values key]
                    | _ => [])
           | _ => [])
  | _ => []

/-- Claim C2: `get_vrt_mapping` fails exactly when a sibling list it
descends into carries the requested id more than once (never because a
value is missing); on a uniquely matched path it returns the deepest
requested level's own (truthy) value, otherwise the nearest ancestor's
resolved value; and it returns `none` only when no visited level carries a
truthy value for the key. -/
theorem get_vrt_mapping_inheritance_chain (json_object : List SideCategory)
    (categoryId : String) (subCategoryId variantId : Option String)
    (key : String) :
    ((getVrtMapping json_object categoryId subCategoryId variantId key).isOk =
        !(ambiguousPath json_object categoryId subCategoryId variantId)) ∧
    (getVrtMapping json_object categoryId subCategoryId variantId key =
        .ok none →
      ∀ v ∈ visitedVals json_object categoryId subCategoryId variantId key,
        truthyO v = false) ∧
    (json_object.filter (fun item => item.id == categoryId) = [] →
      getVrtMapping json_object categoryId subCategoryId variantId key =
        .ok none) ∧
    (∀ category,
      json_object.filter (fun item => item.id == categoryId) = [category] →
      subCategoryId = none →
      getVrtMapping json_object categoryId subCategoryId variantId key =
        .ok (lookupVal category.values key)) ∧
    (∀ category sid,
      json_object.filter (fun item => item.id == categoryId) = [category] →
      subCategoryId = some sid →
      (category.children = none ∨
        ∃ cch, category.children = some cch ∧
          cch.filter (fun item => item.id == sid) = []) →
      getVrtMapping json_object categoryId subCategoryId variantId key =
        .ok (lookupVal category.values key)) ∧
    (∀ category cch subCategory sid,
      json_object.filter (fun item => item.id == categoryId) = [category] →
      subCategoryId = some sid →
      category.children = some cch →
      cch.filter (fun item => item.id == sid) = [subCategory] →
      (variantId = none ∨ subCategory.children = none ∨
        ∃ vid sch, variantId = some vid ∧ subCategory.children = some sch ∧
          sch.filter (fun item => item.id == vid) = []) →
      getVrtMapping json_object categoryId subCategoryId variantId key =
        .ok (if truthyO (lookupVal subCategory.values key)
             then lookupVal subCategory.values key
             else lookupVal category.values key)) ∧
    (∀ category cch subCategory sch variant sid vid,
      json_object.filter (fun item => item.id == categoryId) = [category] →
      subCategoryId = some sid →
      category.children = some cch →
      cch.filter (fun item => item.id == sid) = [subCategory] →
      variantId = some vid →
      subCategory.children = some sch →
      sch.filter (fun item => item.id == vid) = [variant] →
      getVrtMapping json_object categoryId subCategoryId variantId key =
        .ok (if truthyO (lookupVal variant.values key)
             then lookupVal variant.values key
             else if truthyO (lookupVal subCategory.values key)
             then lookupVal subCategory.values key
             else lookupVal category.values key)) := by
  refine ⟨?_, ?_, ?_, ?_, ?_, ?_, ?_⟩
  · unfold getVrtMapping ambiguousPath
    repeat' split
    all_goals simp_all [Except.isOk, Except.toBool]
  · intro hok v hv
    unfold getVrtMapping at hok
    unfold visitedVals at hv
    cases hfil : json_object.filter (fun item => item.id == categoryId) with
    | nil =>
      simp only [hfil] at hv
      simp at hv
    | cons category tl =>
      cases tl with
      | cons b t2 =>
        simp only [hfil] at hok
        exact Except.noConfusion hok
      | nil =>
        cases subCategoryId with
        | none =>
          simp only [hfil] at hok hv
          first
            | (simp_all [truthyO]; done)
            | (simp at hv; rcases hv with rfl | rfl <;> simp_all [truthyO])
        | some sid =>
          cases hch : category.children with
          | none =>
            simp only [hfil, hch] at hok hv
            first
              | (simp_all [truthyO]; done)
              | (simp at hv; rcases hv with rfl | rfl <;> simp_all [truthyO])
          | some cch =>
            cases hsfil : cch.filter (fun item => item.id == sid) with
            | nil =>
              simp only [hfil, hch, hsfil] at hok hv
              first
                | (simp_all [truthyO]; done)
                | (simp at hv; rcases hv with rfl | rfl <;> simp_all [truthyO])
            | cons subCategory stl =>
              cases stl with
              | cons sb st2 =>
                simp only [hfil, hch, hsfil] at hok
                exact Except.noConfusion hok
              | nil =>
                cases variantId with
                | none =>
                  simp only [hfil, hch, hsfil] at hok hv
                  repeat' split at hok
                  all_goals first
                      | (simp_all [truthyO]; done)
                      | (simp at hv; rcases hv with rfl | rfl <;> simp_all [truthyO])
                      | (simp at hv; rcases hv with rfl | rfl | rfl <;> simp_all [truthyO])
                | some vid =>
                  cases hvch : subCategory.children with
                  | none =>
                    simp only [hfil, hch, hsfil, hvch] at hok hv
                    repeat' split at hok
                    all_goals first
                      | (simp_all [truthyO]; done)
                      | (simp at hv; rcases hv with rfl | rfl <;> simp_all [truthyO])
                      | (simp at hv; rcases hv with rfl | rfl | rfl <;> simp_all [truthyO])
                  | some sch =>
                    cases hvfil : sch.filter (fun item => item.id == vid) with
                    | nil =>
                      simp only [hfil, hch, hsfil, hvch, hvfil] at hok hv
                      repeat' split at hok
                      all_goals first
                      | (simp_all [truthyO]; done)
                      | (simp at hv; rcases hv with rfl | rfl <;> simp_all [truthyO])
                      | (simp at hv; rcases hv with rfl | rfl | rfl <;> simp_all [truthyO])
                    | cons variant vtl =>
                      cases vtl with
                      | cons vb vt2 =>
                        simp only [hfil, hch, hsfil, hvch, hvfil] at hok
                        exact Except.noConfusion hok
                      | nil =>
                        simp only [hfil, hch, hsfil, hvch, hvfil] at hok hv
                        repeat' split at hok
                        all_goals first
                      | (simp_all [truthyO]; done)
                      | (simp at hv; rcases hv with rfl | rfl <;> simp_all [truthyO])
                      | (simp at hv; rcases hv with rfl | rfl | rfl <;> simp_all [truthyO])
  · intro hnil
    unfold getVrtMapping
    simp only [hnil]
  · intro category hcat hsub
    subst hsub
    unfold getVrtMapping
    simp only [hcat]
  · intro category sid hcat hsub hmiss
    subst hsub
    unfold getVrtMapping
    rcases hmiss with hch | ⟨cch, hch, hfil⟩
    · simp only [hcat, hch]
    · simp only [hcat, hch, hfil]
  · intro category cch subCategory sid hcat hsub hch hfil hmiss
    subst hsub
    unfold getVrtMapping
    rcases hmiss with hv | hv | ⟨vid, sch, hv, hsch, hvfil⟩
    · subst hv
      simp only [hcat, hch, hfil]
    · cases variantId <;> simp only [hcat, hch, hfil, hv]
    · subst hv
      simp only [hcat, hch, hfil, hsch, hvfil]
  · intro category cch subCategory sch variant sid vid hcat hsub hch hfil hvid
      hsch hvfil
    subst hsub
    subst hvid
    unfold getVrtMapping
    simp only [hcat, hch, hfil, hsch, hvfil]

/-- Concrete side-file container for the witnesses: the category carries a
CVSS vector, the sub-category carries an empty string for the key, the
variant carries nothing. -/
def sideC : List SideCategory :=
  [{ id := "c1", values := [("cvss_v3", .str "VEC")],
     children := some [{ id := "s1", values := [("cvss_v3", .str "")],
                         children := some [{ id := "v1", values := [] }] }] }]

/-- Witness for C2: in `sideC`, a variant request for a key absent at
variant level and empty at sub-category level resolves to the category
value (three-level inheritance fallback). -/
theorem get_vrt_mapping_inheritance_chain_witness :
    getVrtMapping sideC "c1" (some "s1") (some "v1") "cvss_v3" =
      .ok (some (SVal.str "VEC")) :=
  (((get_vrt_mapping_inheritance_chain sideC "c1" (some "s1") (some "v1")
      "cvss_v3").2.2.2.2.2.2)
    { id := "c1", values := [("cvss_v3", .str "VEC")],
      children := some [{ id := "s1", values := [("cvss_v3", .str "")],
                          children := some [{ id := "v1", values := [] }] }] }
    [{ id := "s1", values := [("cvss_v3", .str "")],
       children := some [{ id := "v1", values := [] }] }]
    { id := "s1", values := [("cvss_v3", .str "")],
      children := some [{ id := "v1", values := [] }] }
    [{ id := "v1", values := [] }]
    { id := "v1", values := [] }
    "s1" "v1" (by decide) rfl rfl (by decide) rfl rfl (by decide)).trans
    (by rfl)

/-- Claim C10: the ancestor fallback of `get_vrt_mapping` triggers on
present-but-empty values, not only on missing keys: an empty string or
empty list at sub-category or variant level is discarded in favour of the
nearest ancestor's resolved value. -/
theorem get_vrt_mapping_fallback_on_empty (json_object : List SideCategory)
    (categoryId sid vid key : String) (category : SideCategory)
    (cch : List SideSubCategory) (subCategory : SideSubCategory) :
    (∀ emptyV,
      json_object.filter (fun item => item.id == categoryId) = [category] →
      category.children = some cch →
      cch.filter (fun item => item.id == sid) = [subCategory] →
      lookupVal subCategory.values key = some emptyV →
      emptyV.truthy = false →
      getVrtMapping json_object categoryId (some sid) none key =
        .ok (lookupVal category.values key)) ∧
    (∀ sch variant emptyV,
      json_object.filter (fun item => item.id == categoryId) = [category] →
      category.children = some cch →
      cch.filter (fun item => item.id == sid) = [subCategory] →
      subCategory.children = some sch →
      sch.filter (fun item => item.id == vid) = [variant] →
      lookupVal variant.values key = some emptyV →
      emptyV.truthy = false →
      getVrtMapping json_object categoryId (some sid) (some vid) key =
        .ok (if truthyO (lookupVal subCategory.values key)
             then lookupVal subCategory.values key
             else lookupVal category.values key)) := by
  constructor
  · intro emptyV hcat hch hfil hval hempty
    unfold getVrtMapping
    simp only [hcat, hch, hfil, hval]
    simp [truthyO, hempty]
  · intro sch variant emptyV hcat hch hfil hsch hvfil hval hempty
    unfold getVrtMapping
    simp only [hcat, hch, hfil, hsch, hvfil, hval]
    simp [truthyO, hempty]

/-- Witness for C10: in `sideC`, the sub-category value for `cvss_v3` is
the empty string, and the resolver returns the category value. -/
theorem get_vrt_mapping_fallback_on_empty_witness :
    getVrtMapping sideC "c1" (some "s1") none "cvss_v3" =
      .ok (some (SVal.str "VEC")) :=
  ((get_vrt_mapping_fallback_on_empty sideC "c1" "s1" "v1" "cvss_v3"
    { id := "c1", values := [("cvss_v3", .str "VEC")],
      children := some [{ id := "s1", values := [("cvss_v3", .str "")],
                          children := some [{ id := "v1", values := [] }] }] }
    [{ id := "s1", values := [("cvss_v3", .str "")],
       children := some [{ id := "v1", values := [] }] }]
    { id := "s1", values := [("cvss_v3", .str "")],
      children := some [{ id := "v1", values := [] }] }).1
    (SVal.str "") (by decide) rfl (by decide) (by decide) (by decide)).trans
    (by rfl)

/-! ## Persisted rows and the database state -/

/-- Row of the `vrtcategory` table (persisted fields the import touches). -/
structure VrtCategoryRow where
  id : Nat
  vrt_id : String
  name : String
  release_date : Nat
deriving DecidableEq, Repr, Inhabited

/-- Row of the `vrtsubcategory` table. -/
structure VrtSubCategoryRow where
  id : Nat
  vrt_id : String
  name : String
  release_date : Nat
deriving DecidableEq, Repr, Inhabited

/-- Row of the `vrtvariant` table. -/
structure VrtVariantRow where
  id : Nat
  vrt_id : String
  name : String
  release_date : Nat
deriving DecidableEq, Repr, Inhabited

/-- Row of the `vrt` leaf table. -/
structure VrtRow where
  id : Nat
  priority : Option Int
  category_id : Nat
  sub_category_id : Option Nat
  variant_id : Option Nat
  cvss_id : Option Nat
  release_date : Nat
deriving DecidableEq, Repr, Inhabited

/-- Row of the `cvss` table. -/
structure CvssRow where
  id : Nat
  base_score : ℚ
  base_severity : Option SeverityType
  base_vector : String
deriving DecidableEq, Repr, Inhabited

/-- Enum `schema.tagging.mitre_cwe.CweStatus`. -/
inductive CweStatus where
  | draft
  | stable
  | deprecated
  | incomplete
deriving DecidableEq, Repr, Inhabited

/-- Enum `schema.tagging.mitre_cwe.CweVulnerabilityMappingType`. -/
inductive CweVulnerabilityMappingType where
  | allowed
  | prohibited
  | discouraged
  | allowed_with_review
deriving DecidableEq, Repr, Inhabited

/-- Enum `schema.tagging.mitre_cwe.CweAbstractionType`. -/
inductive CweAbstractionType where
  | base
  | variant
  | class_
  | pillar
  | compound
deriving DecidableEq, Repr, Inhabited

/-- Enum `schema.tagging.mitre_cwe.CweViewType`. -/
inductive CweViewType where
  | graph
deriving DecidableEq, Repr, Inhabited

/-- Enum `schema.tagging.mitre_cwe.CweCategoryStatus`. -/
inductive CweCategoryStatus where
  | draft
  | incomplete
  | obsolete
deriving DecidableEq, Repr, Inhabited

/-- Enum `schema.tagging.mitre_cwe.CweNatureType`. -/
inductive CweNatureType where
  | child_of
  | member_of
  | member_of_primary
  | parent_of
  | depends_on
  | belongs_to
deriving DecidableEq, Repr, Inhabited

/-- Variant payload of the polymorphic `cwebase` node (the `cwe_type`
discriminator together with the subtable columns). -/
inductive CweNodeData where
  | view (type : CweViewType) (objective : String)
  | category (status : CweCategoryStatus) (summary : String)
  | weakness (status : CweStatus) (description : String)
      (abstraction : CweAbstractionType)
deriving DecidableEq, Repr, Inhabited

/-- A `cwebase` node with its per-kind payload. -/
structure CweNode where
  id : Nat
  cwe_id : Nat
  name : String
  version : Option ℚ
  mapping : CweVulnerabilityMappingType
  data : CweNodeData
deriving DecidableEq, Repr, Inhabited

/-- Discriminator test matching `session.query(CweWeakness)`. -/
def CweNode.isWeakness (n : CweNode) : Bool :=
  match n.data with
  | .weakness _ _ _ => true
  | _ => false

/-- Discriminator test matching `session.query(CweCategory)`. -/
def CweNode.isCategory (n : CweNode) : Bool :=
  match n.data with
  | .category _ _ => true
  | _ => false

/-- Discriminator test matching `session.query(CweView)`. -/
def CweNode.isView (n : CweNode) : Bool :=
  match n.data with
  | .view _ _ => true
  | _ => false

/-- Row of the `cwerelationship` edge table. -/
structure CweRelationshipRow where
  source_id : Nat
  destination_id : Nat
  nature : CweNatureType
deriving DecidableEq, Repr, Inhabited

/-- The database state seen by one import session: one field per table
the importers touch, plus the id counter and the warning log. -/
structure DB where
  vrt_categories : List VrtCategoryRow
  vrt_sub_categories : List VrtSubCategoryRow
  vrt_variants : List VrtVariantRow
  vrts : List VrtRow
  cvss_rows : List CvssRow
  cwe_nodes : List CweNode
  cwe_relationships : List CweRelationshipRow
  vrt_cwe_mappings : List (Nat × Nat)
  warnings : List String
  nextId : Nat
deriving DecidableEq, Repr, Inhabited

/-- The empty database. -/
def emptyDB : DB :=
  { vrt_categories := [], vrt_sub_categories := [], vrt_variants := [],
    vrts := [], cvss_rows := [], cwe_nodes := [], cwe_relationships := [],
    vrt_cwe_mappings := [], warnings := [], nextId := 0 }

/-! ## `get_vrt` (`schema/tagging/bugcrowd_vrt.py`) -/

/-- Python truthiness of an optional string argument. -/
def truthyStr : Option String → Bool
  | none => false
  | some s => s ≠ ""

/-- Python truthiness of an optional integer argument: `None` and `0` are
both falsy. -/
def truthyInt : Option Int → Bool
  | none => false
  | some n => n ≠ 0

/-- Model of `get_vrt`: the query built from the three inner joins on
`vrt_id` and the priority filter.  The source computes
`priority_filter = Vrt.priority == priority if priority else
Vrt.priority.is_(None)`, so a falsy priority argument filters on NULL. -/
def get_vrt (db : DB) (category_id sub_category_id variant_id : Option String)
    (priority : Option Int) : Except String (List VrtRow) :=
  let priorityFilter : VrtRow → Bool := fun r =>
    if truthyInt priority then r.priority == priority else r.priority == none
  let categoryJoin : VrtRow → Bool := fun r =>
    db.vrt_categories.any
      (fun c => c.id == r.category_id && some c.vrt_id == category_id)
  let subCategoryJoin : VrtRow → Bool := fun r =>
    db.vrt_sub_categories.any
      (fun s => r.sub_category_id == some s.id &&
        some s.vrt_id == sub_category_id)
  let variantJoin : VrtRow → Bool := fun r =>
    db.vrt_variants.any
      (fun v => r.variant_id == some v.id && some v.vrt_id == variant_id)
  if truthyStr category_id && truthyStr sub_category_id &&
      truthyStr variant_id then
    .ok (db.vrts.filter (fun r =>
      categoryJoin r && subCategoryJoin r && variantJoin r &&
        priorityFilter r))
  else if truthyStr category_id && truthyStr sub_category_id then
    .ok (db.vrts.filter (fun r =>
      categoryJoin r && subCategoryJoin r && r.variant_id == none &&
        priorityFilter r))
  else if truthyStr category_id then
    .ok (db.vrts.filter (fun r =>
      categoryJoin r && r.sub_category_id == none && r.variant_id == none &&
        priorityFilter r))
  else .error "ValueError: Invalid VRT data."

/-- Claim C9: a lookup with priority 0 builds the exact same query as a
lookup with no priority (the filter is priority IS NULL), every row it can
return stores a NULL priority, and a leaf stored with priority 0 is never
returned. -/
theorem get_vrt_priority_zero_is_null (db : DB)
    (category_id sub_category_id variant_id : Option String) :
    (get_vrt db category_id sub_category_id variant_id (some 0) =
      get_vrt db category_id sub_category_id variant_id none) ∧
    (∀ rows, get_vrt db category_id sub_category_id variant_id (some 0) =
        .ok rows →
      ∀ r ∈ rows, r.priority = none) ∧
    (∀ rows r, get_vrt db category_id sub_category_id variant_id (some 0) =
        .ok rows →
      r ∈ rows → r.priority ≠ some 0) := by
  have key : ∀ rows,
      get_vrt db category_id sub_category_id variant_id (some 0) =
        .ok rows →
      ∀ r ∈ rows, r.priority = none := by
    intro rows hok r hr
    unfold get_vrt at hok
    repeat' split at hok
    any_goals exact Except.noConfusion hok
    all_goals
      simp only [Except.ok.injEq] at hok
    all_goals
      subst hok
    all_goals
      simp [List.mem_filter, truthyInt] at hr
    all_goals
      tauto
  refine ⟨rfl, key, ?_⟩
  intro rows r hok hr
  rw [key rows hok r hr]
  simp

/-! ## CVSS persistence (`create_cvss_v3` in `schema/tagging/cvss.py`) -/

/-- Model of `create_cvss_v3`: build the transient value, dedup by exact
`base_vector`, refresh score and severity in place on a hit, insert and
flush otherwise.  Returns the id the caller assigns to `vrt.cvss`. -/
def create_cvss_v3 (score3 score4 : String → ℚ) (db : DB)
    (cvss_v3_vector : Option String) : Except String (Option Nat × DB) :=
  match create_cvss3 score3 score4 cvss_v3_vector with
  | .error e => .error e
  | .ok none => .ok (none, db)
  | .ok (some cvss) =>
    match db.cvss_rows.filter (fun r => r.base_vector == cvss.base_vector) with
    | [] =>
      let row : CvssRow :=
        { id := db.nextId, base_score := cvss.base_score,
          base_severity := cvss.base_severity,
          base_vector := cvss.base_vector }
      .ok (some db.nextId,
        { db with cvss_rows := db.cvss_rows ++ [row],
                  nextId := db.nextId + 1 })
    | [r] =>
      .ok (some r.id,
        { db with cvss_rows := db.cvss_rows.map (fun x =>
            if x.id == r.id then
              { x with base_severity := cvss.base_severity,
                       base_score := cvss.base_score }
            else x) })
    | _ => .error "MultipleResultsFound: cvss.base_vector"

/-! ## CWE cross-reference linking (`_create_vrt` in `schema/__init__.py`) -/

/-- Numeric value of a digit list. -/
def digitsToNat (cs : List Char) : Nat :=
  cs.foldl (fun a c => a * 10 + (c.toNat - Char.toNat '0')) 0

/-- Model of `re.match(r"^CWE-(?P<id>\d+)$", item, flags=re.IGNORECASE)`:
the lowered characters must be `cwe-` followed by one or more digits. -/
def parseCweToken (s : String) : Option Nat :=
  match s.data.map Char.toLower with
  | 'c' :: 'w' :: 'e' :: '-' :: rest =>
    if rest ≠ [] && rest.all (fun c => c.isDigit) then some (digitsToNat rest)
    else none
  | _ => none

/-- Iteration of `for item in (items or [])` over the resolved side value:
a falsy value iterates nothing, a list iterates its entries, and a
non-empty string iterates its characters (each a one-character string). -/
def sValIter : Option SVal → List String
  | none => []
  | some (.str s) => s.data.map (fun c => String.mk [c])
  | some (.list l) => l

/-- Insert into the `vrtcwemapping` link table.  Its primary key is
`(cwe_base_id, vrt_id)`, so the `session.flush()` right after
`vrt.cwes.append(...)` fails when the pair is already linked. -/
def insertVrtCweMapping (db : DB) (cweBaseId vrtId : Nat) :
    Except String DB :=
  if (cweBaseId, vrtId) ∈ db.vrt_cwe_mappings then
    .error "IntegrityError: vrtcwemapping_pkey"
  else
    .ok { db with
            vrt_cwe_mappings := db.vrt_cwe_mappings ++ [(cweBaseId, vrtId)] }

/-- Model of the CWE token loop at the end of `_create_vrt`.  For each
token matching `CWE-<digits>`: the weakness query result is bound with a
walrus in `if cwes := ...all():`, so an empty result skips the whole block
and the `else: logger.warning(... not found)` branch can never run; more
than one match logs a warning; exactly one match appends the weakness to
`vrt.cwes` with no membership check and flushes. -/
def linkCwes (db : DB) (vrtRowId : Nat) : List String → Except String DB
  | [] => .ok db
  | item :: rest =>
    match parseCweToken item with
    | none => linkCwes db vrtRowId rest
    | some cweId =>
      match db.cwe_nodes.filter
          (fun n => n.isWeakness && n.cwe_id == cweId) with
      | [] => linkCwes db vrtRowId rest
      | [w] =>
        match insertVrtCweMapping db w.id vrtRowId with
        | .error e => .error e
        | .ok db1 => linkCwes db1 vrtRowId rest
      | _ =>
        linkCwes
          { db with warnings := db.warnings ++
              ["CWE weakness exists more than once."] } vrtRowId rest

/-! ## The VRT leaf upsert (`_create_vrt`) -/

/-- Insert a `Vrt` leaf and flush.  The table declares
`UniqueConstraint(category_id, sub_category_id, variant_id, priority,
postgresql_nulls_not_distinct=True)`, which is exactly equality of the
four option fields. -/
def insertVrt (db : DB) (row : VrtRow) : Except String DB :=
  if db.vrts.any (fun r =>
      r.category_id == row.category_id &&
      r.sub_category_id == row.sub_category_id &&
      r.variant_id == row.variant_id &&
      r.priority == row.priority) then
    .error "IntegrityError: vrt natural key"
  else
    .ok { db with vrts := db.vrts ++ [row], nextId := db.nextId + 1 }

/-- Model of `_create_vrt`: resolve and persist the CVSS side value when
the CVSS side list is truthy, look the leaf up through `get_vrt` and
`one_or_none`, update it in place or insert a fresh leaf, then resolve the
CWE side value and run the linking loop when the CWE side list is
truthy. -/
def createVrt (score3 score4 : String → ℚ) (db : DB) (release_date : Nat)
    (category : VrtCategoryRow) (cvss_object cwe_object : List SideCategory)
    (sub_category : Option VrtSubCategoryRow)
    (variant : Option VrtVariantRow) (priority : Option Int) :
    Except String DB :=
  let resStep : Except String (Option Nat × DB) :=
    if cvss_object.isEmpty then .ok (none, db)
    else
      match getVrtMapping cvss_object category.vrt_id
          (sub_category.map (fun s => s.vrt_id))
          (variant.map (fun v => v.vrt_id)) "cvss_v3" with
      | .error e => .error e
      | .ok (some (.list _)) => .error "AttributeError: lower"
      | .ok (some (.str s)) => create_cvss_v3 score3 score4 db (some s)
      | .ok none => create_cvss_v3 score3 score4 db none
  match resStep with
  | .error e => .error e
  | .ok (result, db1) =>
    match get_vrt db1 (some category.vrt_id)
        (sub_category.map (fun s => s.vrt_id))
        (variant.map (fun v => v.vrt_id)) priority with
    | .error e => .error e
    | .ok (_ :: _ :: _) => .error "MultipleResultsFound: vrt"
    | .ok [vrt] =>
      let db2 := { db1 with vrts := db1.vrts.map (fun r =>
        if r.id == vrt.id then
          { r with cvss_id := result, release_date := release_date }
        else r) }
      if cwe_object.isEmpty then .ok db2
      else
        match getVrtMapping cwe_object category.vrt_id
            (sub_category.map (fun s => s.vrt_id))
            (variant.map (fun v => v.vrt_id)) "cwe" with
        | .error e => .error e
        | .ok items => linkCwes db2 vrt.id (sValIter items)
    | .ok [] =>
      let row : VrtRow :=
        { id := db1.nextId, priority := priority,
          category_id := category.id,
          sub_category_id := sub_category.map (fun s => s.id),
          variant_id := variant.map (fun v => v.id),
          cvss_id := result, release_date := release_date }
      match insertVrt db1 row with
      | .error e => .error e
      | .ok db2 =>
        if cwe_object.isEmpty then .ok db2
        else
          match getVrtMapping cwe_object category.vrt_id
              (sub_category.map (fun s => s.vrt_id))
              (variant.map (fun v => v.vrt_id)) "cwe" with
          | .error e => .error e
          | .ok items => linkCwes db2 row.id (sValIter items)

/-! ## The VRT import (`import_vrt_categories`) -/

/-- Parsed `VrtVariantImport` record. -/
structure VrtVariantImport where
  vrt_id : String
  name : String
  priority : Option Int
deriving DecidableEq, Repr, Inhabited

/-- Parsed `VrtSubCategoryImport` record; a missing `children` key and an
empty children list are both falsy in the source, so both are `[]`. -/
structure VrtSubCategoryImport where
  vrt_id : String
  name : String
  priority : Option Int
  children : List VrtVariantImport
deriving DecidableEq, Repr, Inhabited

/-- Parsed `VrtCategoryImport` record. -/
structure VrtCategoryImport where
  vrt_id : String
  name : String
  priority : Option Int
  children : List VrtSubCategoryImport
deriving DecidableEq, Repr, Inhabited

/-- Upsert of a `VrtCategory` by `vrt_id`: refresh `name` and
`release_date` when present, create otherwise. -/
def upsertVrtCategory (db : DB) (category : VrtCategoryImport)
    (release_date : Nat) : Except String (VrtCategoryRow × DB) :=
  match db.vrt_categories.filter (fun c => c.vrt_id == category.vrt_id) with
  | [] =>
    let row : VrtCategoryRow :=
      { id := db.nextId, vrt_id := category.vrt_id, name := category.name,
        release_date := release_date }
    .ok (row, { db with vrt_categories := db.vrt_categories ++ [row],
                        nextId := db.nextId + 1 })
  | [c] =>
    let row := { c with name := category.name, release_date := release_date }
    .ok (row, { db with vrt_categories :=
        db.vrt_categories.map (fun x => if x.id == c.id then row else x) })
  | _ => .error "MultipleResultsFound: vrtcategory.vrt_id"

/-- Upsert of a `VrtSubCategory` by `vrt_id`. -/
def upsertVrtSubCategory (db : DB) (sub_category : VrtSubCategoryImport)
    (release_date : Nat) : Except String (VrtSubCategoryRow × DB) :=
  match db.vrt_sub_categories.filter
      (fun c => c.vrt_id == sub_category.vrt_id) with
  | [] =>
    let row : VrtSubCategoryRow :=
      { id := db.nextId, vrt_id := sub_category.vrt_id,
        name := sub_category.name, release_date := release_date }
    .ok (row, { db with
        vrt_sub_categories := db.vrt_sub_categories ++ [row],
        nextId := db.nextId + 1 })
  | [c] =>
    let row := { c with name := sub_category.name,
                        release_date := release_date }
    .ok (row, { db with vrt_sub_categories :=
        db.vrt_sub_categories.map (fun x => if x.id == c.id then row else x) })
  | _ => .error "MultipleResultsFound: vrtsubcategory.vrt_id"

/-- Upsert of a `VrtVariant` by `vrt_id`. -/
def upsertVrtVariant (db : DB) (variant : VrtVariantImport)
    (release_date : Nat) : Except String (VrtVariantRow × DB) :=
  match db.vrt_variants.filter (fun c => c.vrt_id == variant.vrt_id) with
  | [] =>
    let row : VrtVariantRow :=
      { id := db.nextId, vrt_id := variant.vrt_id, name := variant.name,
        release_date := release_date }
    .ok (row, { db with vrt_variants := db.vrt_variants ++ [row],
                        nextId := db.nextId + 1 })
  | [c] =>
    let row := { c with name := variant.name, release_date := release_date }
    .ok (row, { db with vrt_variants :=
        db.vrt_variants.map (fun x => if x.id == c.id then row else x) })
  | _ => .error "MultipleResultsFound: vrtvariant.vrt_id"

/-- The variant loop of `import_vrt_categories`. -/
def processVariants (score3 score4 : String → ℚ)
    (cvss_object cwe_object : List SideCategory) (release_date : Nat)
    (vrt_category : VrtCategoryRow)
    (vrt_sub_category : VrtSubCategoryRow) :
    List VrtVariantImport → DB → Except String DB
  | [], db => .ok db
  | variant :: rest, db =>
    match upsertVrtVariant db variant release_date with
    | .error e => .error e
    | .ok (vrt_variant, db1) =>
      match createVrt score3 score4 db1 release_date vrt_category
          cvss_object cwe_object (some vrt_sub_category) (some vrt_variant)
          variant.priority with
      | .error e => .error e
      | .ok db2 =>
        processVariants score3 score4 cvss_object cwe_object release_date
          vrt_category vrt_sub_category rest db2

/-- The sub-category loop of `import_vrt_categories`: a sub-category with
variants yields one leaf per variant; one without variants yields a single
leaf carrying the sub-category priority. -/
def processSubCategories (score3 score4 : String → ℚ)
    (cvss_object cwe_object : List SideCategory) (release_date : Nat)
    (vrt_category : VrtCategoryRow) :
    List VrtSubCategoryImport → DB → Except String DB
  | [], db => .ok db
  | sub_category :: rest, db =>
    match upsertVrtSubCategory db sub_category release_date with
    | .error e => .error e
    | .ok (vrt_sub_category, db1) =>
      let next : Except String DB :=
        if sub_category.children.isEmpty then
          createVrt score3 score4 db1 release_date vrt_category
            cvss_object cwe_object (some vrt_sub_category) none
            sub_category.priority
        else
          processVariants score3 score4 cvss_object cwe_object release_date
            vrt_category vrt_sub_category sub_category.children db1
      match next with
      | .error e => .error e
      | .ok db2 =>
        processSubCategories score3 score4 cvss_object cwe_object
          release_date vrt_category rest db2

/-- One iteration of the category loop: the `ValueError` guard on a truthy
category priority, the category upsert, then children or a bare category
leaf. -/
def processCategory (score3 score4 : String → ℚ)
    (cvss_object cwe_object : List SideCategory) (release_date : Nat)
    (category : VrtCategoryImport) (db : DB) : Except String DB :=
  if truthyInt category.priority then
    .error "ValueError: Category priority must be None."
  else
    match upsertVrtCategory db category release_date with
    | .error e => .error e
    | .ok (vrt_category, db1) =>
      if category.children.isEmpty then
        createVrt score3 score4 db1 release_date vrt_category cvss_object
          cwe_object none none none
      else
        processSubCategories score3 score4 cvss_object cwe_object
          release_date vrt_category category.children db1

/-- Model of `import_vrt_categories` over parsed content: the category
loop with one commit at the end (errors abort the run). -/
def importVrtContent (score3 score4 : String → ℚ)
    (cvss_object cwe_object : List SideCategory) (release_date : Nat) :
    List VrtCategoryImport → DB → Except String DB
  | [], db => .ok db
  | category :: rest, db =>
    match processCategory score3 score4 cvss_object cwe_object release_date
        category db with
    | .error e => .error e
    | .ok db1 =>
      importVrtContent score3 score4 cvss_object cwe_object release_date
        rest db1

/-- Helper: a category whose priority is truthy makes the category loop
body fail with the `ValueError` immediately. -/
theorem processCategory_truthy_priority_error (score3 score4 : String → ℚ)
    (cvss_object cwe_object : List SideCategory) (release_date : Nat)
    (category : VrtCategoryImport) (db : DB)
    (h : truthyInt category.priority = true) :
    processCategory score3 score4 cvss_object cwe_object release_date
      category db = .error "ValueError: Category priority must be None." := by
  unfold processCategory
  simp [h]

/-- Claim C6 (amended): a category whose top-level priority is set to a
nonzero value makes the import fail, and when it is the first category the
error is exactly the explicit `ValueError`; a priority of 0 is Python-falsy
and slips past the check (see the counterexample). -/
theorem category_priority_validation (score3 score4 : String → ℚ)
    (cvss_object cwe_object : List SideCategory) (release_date : Nat)
    (cats : List VrtCategoryImport) (db : DB) :
    ((∃ c ∈ cats, truthyInt c.priority = true) →
      (importVrtContent score3 score4 cvss_object cwe_object release_date
        cats db).isOk = false) ∧
    (∀ c rest, cats = c :: rest → truthyInt c.priority = true →
      importVrtContent score3 score4 cvss_object cwe_object release_date
        cats db = .error "ValueError: Category priority must be None.") := by
  constructor
  · intro hex
    induction cats generalizing db with
    | nil => simp at hex
    | cons c rest ih =>
      rcases hex with ⟨x, hx, hxt⟩
      rcases List.mem_cons.mp hx with rfl | hxr
      · unfold importVrtContent
        rw [processCategory_truthy_priority_error score3 score4 cvss_object
          cwe_object release_date x db hxt]
        rfl
      · unfold importVrtContent
        cases hpc : processCategory score3 score4 cvss_object cwe_object
            release_date c db with
        | error e => rfl
        | ok db1 => exact ih db1 ⟨x, hxr, hxt⟩
  · intro c rest hc ht
    subst hc
    unfold importVrtContent
    rw [processCategory_truthy_priority_error score3 score4 cvss_object
      cwe_object release_date c db ht]

/-- Witness for the amended C6: a single category with priority 3 aborts
the import with the explicit `ValueError`. -/
theorem category_priority_validation_witness :
    importVrtContent (fun _ => 0) (fun _ => 0) [] [] 7
      [{ vrt_id := "c3", name := "C3", priority := some 3, children := [] }]
      emptyDB = .error "ValueError: Category priority must be None." :=
  (category_priority_validation (fun _ => 0) (fun _ => 0) [] [] 7
      [{ vrt_id := "c3", name := "C3", priority := some 3, children := [] }]
      emptyDB).2
    { vrt_id := "c3", name := "C3", priority := some 3, children := [] } []
    rfl (by decide)

/-- Counterexample for C6 as stated: a category that declares
`"priority": 0` has its priority field set, yet the guard
`if category.priority:` is falsy and the import succeeds instead of
failing with a `ValueError`. -/
theorem category_priority_zero_accepted :
    (importVrtContent (fun _ => 0) (fun _ => 0) [] [] 7
      [{ vrt_id := "c0", name := "C0", priority := some 0, children := [] }]
      emptyDB).isOk = true := by rfl

/-! ## Failing inputs for the idempotency contract and the CWE linking -/

/-- A weakness node for CWE-79, as created by the CWE import before the
VRT import runs. -/
def weakness79 : CweNode :=
  { id := 0, cwe_id := 79, name := "Cross-site Scripting", version := none,
    mapping := .allowed, data := .weakness .stable "XSS" .base }

/-- Database holding only the CWE-79 weakness. -/
def dbWithWeakness79 : DB :=
  { emptyDB with cwe_nodes := [weakness79], nextId := 1 }

/-- Claim C3 evaluation at the failing input of the spec scenario: with
weakness CWE-79 present and side value `["CWE-79", "CWE-9999"]`, the loop
links CWE-79 and skips CWE-9999 but records no warning at all (the
`not found` branch is dead code behind the walrus `if cwes := ...:`), and
re-running the loop for the same leaf appends the already present
cross-reference again, violating the link-table primary key instead of
being skipped. -/
theorem cwe_link_silent_skip_and_duplicate_append :
    linkCwes dbWithWeakness79 5
        (sValIter (some (.list ["CWE-79", "CWE-9999"]))) =
      .ok { dbWithWeakness79 with vrt_cwe_mappings := [(0, 5)] } ∧
    (match linkCwes dbWithWeakness79 5
        (sValIter (some (.list ["CWE-79", "CWE-9999"]))) with
     | .ok db1 => linkCwes db1 5 (sValIter (some (.list ["CWE-79"])))
     | .error e => .error e) = .error "IntegrityError: vrtcwemapping_pkey" :=
  ⟨rfl, rfl⟩

/-- A one-category, one-sub-category, one-variant VRT tree. -/
def c1Tree : List VrtCategoryImport :=
  [{ vrt_id := "c1", name := "Cat", priority := none,
     children := [{ vrt_id := "s1", name := "Sub", priority := none,
                    children := [{ vrt_id := "v1", name := "Var",
                                   priority := some 1 }] }] }]

/-- CWE side file resolving `["CWE-79"]` for every leaf of `c1Tree`. -/
def c1CweSide : List SideCategory :=
  [{ id := "c1", values := [("cwe", .list ["CWE-79"])], children := none }]

/-- The same tree with the variant priority 0 instead of 1. -/
def c1TreeP0 : List VrtCategoryImport :=
  [{ vrt_id := "c1", name := "Cat", priority := none,
     children := [{ vrt_id := "s1", name := "Sub", priority := none,
                    children := [{ vrt_id := "v1", name := "Var",
                                   priority := some 0 }] }] }]

/-- Claim C1 evaluation at two failing inputs.  First: with an unchanged
tree whose leaf cross-references CWE-79, the first run succeeds but the
second aborts on the duplicate `vrtcwemapping` key (the append has no
membership check), so the state after two runs is not the state after one
run.  Second: a leaf with priority 0 is looked up with the
`priority IS NULL` filter on the second run, is not found, and the fresh
insert violates the NULL-aware natural key. -/
theorem import_vrt_second_run_fails :
    (importVrtContent (fun _ => 0) (fun _ => 0) [] c1CweSide 7 c1Tree
      dbWithWeakness79).isOk = true ∧
    (match importVrtContent (fun _ => 0) (fun _ => 0) [] c1CweSide 7 c1Tree
        dbWithWeakness79 with
     | .ok db1 => importVrtContent (fun _ => 0) (fun _ => 0) [] c1CweSide 7
         c1Tree db1
     | .error e => .error e) = .error "IntegrityError: vrtcwemapping_pkey" ∧
    (importVrtContent (fun _ => 0) (fun _ => 0) [] [] 7 c1TreeP0
      emptyDB).isOk = true ∧
    (match importVrtContent (fun _ => 0) (fun _ => 0) [] [] 7 c1TreeP0
        emptyDB with
     | .ok db1 => importVrtContent (fun _ => 0) (fun _ => 0) [] [] 7
         c1TreeP0 db1
     | .error e => .error e) = .error "IntegrityError: vrt natural key" :=
  ⟨rfl, rfl, rfl, rfl⟩

/-! ## CWE import (`import_cwe_weaknesses`, `import_cwe_categories`).
The XML has already been parsed into typed items; the loop bodies below
model the per-entry upsert logic of the two import functions. -/

/-- One `<Weakness>` entry after parsing and enum normalization. -/
structure CweWeaknessItem where
  cwe_id : Nat
  name : String
  status : CweStatus
  description : String
  abstraction : CweAbstractionType
  mapping : CweVulnerabilityMappingType
deriving DecidableEq, Repr, Inhabited

/-- One `<Category>` entry after parsing; `members` are the
`Has_Member CWE_ID` references in document order. -/
structure CweCategoryItem where
  cwe_id : Nat
  name : String
  status : CweCategoryStatus
  summary : String
  mapping : CweVulnerabilityMappingType
  members : List Nat
deriving DecidableEq, Repr, Inhabited

/-- Loop body of `import_cwe_weaknesses`: look the weakness up by
`cwe_id` (`one_or_none`); create it with a `member_of_primary` edge to the
parent view when absent; when present, leave the node untouched and create
the edge only if no relationship row with this
`(source_id, destination_id)` pair exists. -/
def processWeaknessItem (db : DB) (version : ℚ) (parentId : Nat)
    (item : CweWeaknessItem) : Except String DB :=
  match db.cwe_nodes.filter
      (fun n => n.isWeakness && n.cwe_id == item.cwe_id) with
  | [] =>
    let w : CweNode :=
      { id := db.nextId, cwe_id := item.cwe_id, name := item.name,
        version := some version, mapping := item.mapping,
        data := .weakness item.status item.description item.abstraction }
    .ok { db with
            cwe_nodes := db.cwe_nodes ++ [w],
            cwe_relationships := db.cwe_relationships ++
              [{ source_id := w.id, destination_id := parentId,
                 nature := .member_of_primary }],
            nextId := db.nextId + 1 }
  | [w] =>
    match db.cwe_relationships.filter
        (fun e => e.source_id == w.id && e.destination_id == parentId) with
    | [] =>
      .ok { db with cwe_relationships := db.cwe_relationships ++
        [{ source_id := w.id, destination_id := parentId,
           nature := .member_of_primary }] }
    | [_] => .ok db
    | _ => .error "MultipleResultsFound: cwerelationship"
  | _ => .error "MultipleResultsFound: cweweakness.cwe_id"

/-- The `Has_Member` loop inside `import_cwe_categories`: for each
referenced weakness `cwe_id`, fail with the `ValueError` when it does not
exist, otherwise add a `belongs_to` edge from the weakness to the
category. -/
def addMemberEdges (db : DB) (categoryId : Nat) :
    List Nat → Except String DB
  | [] => .ok db
  | m :: rest =>
    match db.cwe_nodes.filter (fun n => n.isWeakness && n.cwe_id == m) with
    | [] => .error "ValueError: CWE weakness not found"
    | [w] =>
      addMemberEdges
        { db with cwe_relationships := db.cwe_relationships ++
            [{ source_id := w.id, destination_id := categoryId,
               nature := .belongs_to }] }
        categoryId rest
    | _ => .error "MultipleResultsFound: cweweakness.cwe_id"

/-- Loop body of `import_cwe_categories`: a category that already exists
is skipped entirely; otherwise the category node, its `member_of_primary`
edge to the parent view and one `belongs_to` edge per member weakness are
created. -/
def processCategoryItem (db : DB) (version : ℚ) (parentId : Nat)
    (item : CweCategoryItem) : Except String DB :=
  match db.cwe_nodes.filter
      (fun n => n.isCategory && n.cwe_id == item.cwe_id) with
  | [] =>
    let cat : CweNode :=
      { id := db.nextId, cwe_id := item.cwe_id, name := item.name,
        version := some version, mapping := item.mapping,
        data := .category item.status item.summary }
    addMemberEdges
      { db with
          cwe_nodes := db.cwe_nodes ++ [cat],
          cwe_relationships := db.cwe_relationships ++
            [{ source_id := db.nextId, destination_id := parentId,
               nature := .member_of_primary }],
          nextId := db.nextId + 1 }
      db.nextId item.members
  | [_] => .ok db
  | _ => .error "MultipleResultsFound: cwecategory.cwe_id"

/-- Helper: when every member reference resolves to exactly one weakness,
the member loop adds exactly one `belongs_to` edge per reference. -/
theorem addMemberEdges_resolves (cid : Nat) (ms : List Nat) :
    ∀ db : DB, (∀ m ∈ ms,
      (db.cwe_nodes.filter
        (fun n => n.isWeakness && n.cwe_id == m)).length = 1) →
    addMemberEdges db cid ms =
      .ok { db with cwe_relationships := db.cwe_relationships ++
              ms.map (fun m =>
                { source_id := ((db.cwe_nodes.filter
                    (fun n => n.isWeakness && n.cwe_id == m)).headI).id,
                  destination_id := cid,
                  nature := CweNatureType.belongs_to }) } := by
  induction ms with
  | nil =>
    intro db h
    simp [addMemberEdges]
  | cons m rest ih =>
    intro db h
    have hm := h m (List.mem_cons_self m rest)
    cases hfil : db.cwe_nodes.filter (fun n => n.isWeakness && n.cwe_id == m)
      with
    | nil =>
      rw [hfil] at hm
      simp at hm
    | cons w tl =>
      cases tl with
      | cons w2 t2 =>
        rw [hfil] at hm
        simp at hm
      | nil =>
        simp only [addMemberEdges, hfil]
        rw [ih _ (by intro x hx; exact h x (List.mem_cons_of_mem m hx))]
        simp [hfil, List.append_assoc]

/-- Helper: when every member reference resolves to at most one weakness
and some reference resolves to none, the member loop fails with the
missing-weakness `ValueError`. -/
theorem addMemberEdges_missing (cid : Nat) (ms : List Nat) :
    ∀ db : DB, (∀ m ∈ ms,
      (db.cwe_nodes.filter
        (fun n => n.isWeakness && n.cwe_id == m)).length ≤ 1) →
    (∃ m ∈ ms,
      db.cwe_nodes.filter (fun n => n.isWeakness && n.cwe_id == m) = []) →
    addMemberEdges db cid ms = .error "ValueError: CWE weakness not found" := by
  induction ms with
  | nil =>
    intro db h hex
    simp at hex
  | cons m rest ih =>
    intro db h hex
    cases hfil : db.cwe_nodes.filter (fun n => n.isWeakness && n.cwe_id == m)
      with
    | nil =>
      simp only [addMemberEdges, hfil]
    | cons w tl =>
      cases tl with
      | cons w2 t2 =>
        have hm := h m (List.mem_cons_self m rest)
        rw [hfil] at hm
        simp at hm
      | nil =>
        simp only [addMemberEdges, hfil]
        refine ih _ (by intro x hx; exact h x (List.mem_cons_of_mem m hx)) ?_
        rcases hex with ⟨x, hx, hxe⟩
        rcases List.mem_cons.mp hx with rfl | hxr
        · rw [hfil] at hxe
          exact absurd hxe (by simp)
        · exact ⟨x, hxr, hxe⟩

/-- Claim C4: when the weakness import re-processes an existing weakness
(uniquely matched by `cwe_id`), the node table — and with it the fields
name, description, status, abstraction, mapping and version — is left
unchanged, and the `member_of_primary` edge to the parent view is created
exactly when no relationship row with that
`(source_id, destination_id)` pair exists yet; the decision is made by the
edge-existence query, not by node existence. -/
theorem weakness_reimport_frame (db : DB) (version : ℚ) (parentId : Nat)
    (item : CweWeaknessItem) (w : CweNode)
    (hw : db.cwe_nodes.filter
      (fun n => n.isWeakness && n.cwe_id == item.cwe_id) = [w]) :
    (db.cwe_relationships.filter
        (fun e => e.source_id == w.id && e.destination_id == parentId) =
          [] →
      processWeaknessItem db version parentId item =
        .ok { db with cwe_relationships := db.cwe_relationships ++
          [{ source_id := w.id, destination_id := parentId,
             nature := CweNatureType.member_of_primary }] }) ∧
    (∀ e, db.cwe_relationships.filter
        (fun e2 => e2.source_id == w.id && e2.destination_id == parentId) =
          [e] →
      processWeaknessItem db version parentId item = .ok db) := by
  constructor
  · intro hnone
    simp only [processWeaknessItem, hw, hnone]
  · intro e he
    simp only [processWeaknessItem, hw, he]

/-- A pre-seeded parent view, as created by `create_cwe_views`. -/
def view699 : CweNode :=
  { id := 1, cwe_id := 699, name := "Software Development",
    version := none, mapping := .prohibited,
    data := .view .graph "This view organizes weaknesses." }

/-- Database holding the CWE-79 weakness and the parent view. -/
def dbC4 : DB :=
  { emptyDB with cwe_nodes := [weakness79, view699], nextId := 2 }

/-- The CWE-79 weakness entry as it appears on a re-import. -/
def c4item : CweWeaknessItem :=
  { cwe_id := 79, name := "Improper Neutralization", status := .stable,
    description := "XSS", abstraction := .base, mapping := .allowed }

/-- Witness for C4: re-importing CWE-79 into `dbC4`, where the view edge
is missing, repairs the edge and touches nothing else. -/
theorem weakness_reimport_frame_witness :
    processWeaknessItem dbC4 4 1 c4item =
      .ok { dbC4 with cwe_relationships := dbC4.cwe_relationships ++
        [{ source_id := 0, destination_id := 1,
           nature := CweNatureType.member_of_primary }] } :=
  (weakness_reimport_frame dbC4 4 1 c4item weakness79 (by decide)).1 rfl

/-- Claim C5: a category entry whose `cwe_id` already exists is a complete
no-op; otherwise the category node, one `member_of_primary` edge to the
parent view and one `belongs_to` edge (source = weakness, destination =
category) per member reference are created, and a member reference whose
`cwe_id` has no weakness fails the run with the missing-weakness
`ValueError`. -/
theorem category_import_skip_or_create (db : DB) (version : ℚ)
    (parentId : Nat) (item : CweCategoryItem) :
    (∀ c, db.cwe_nodes.filter
        (fun n => n.isCategory && n.cwe_id == item.cwe_id) = [c] →
      processCategoryItem db version parentId item = .ok db) ∧
    (db.cwe_nodes.filter
        (fun n => n.isCategory && n.cwe_id == item.cwe_id) = [] →
      (∀ m ∈ item.members,
        (db.cwe_nodes.filter
          (fun n => n.isWeakness && n.cwe_id == m)).length = 1) →
      processCategoryItem db version parentId item =
        .ok { db with
          cwe_nodes := db.cwe_nodes ++
            [{ id := db.nextId, cwe_id := item.cwe_id, name := item.name,
               version := some version, mapping := item.mapping,
               data := .category item.status item.summary }],
          cwe_relationships := db.cwe_relationships ++
            ({ source_id := db.nextId, destination_id := parentId,
               nature := CweNatureType.member_of_primary } ::
              item.members.map (fun m =>
                { source_id := ((db.cwe_nodes.filter
                    (fun n => n.isWeakness && n.cwe_id == m)).headI).id,
                  destination_id := db.nextId,
                  nature := CweNatureType.belongs_to })),
          nextId := db.nextId + 1 }) ∧
    (db.cwe_nodes.filter
        (fun n => n.isCategory && n.cwe_id == item.cwe_id) = [] →
      (∀ m ∈ item.members,
        (db.cwe_nodes.filter
          (fun n => n.isWeakness && n.cwe_id == m)).length ≤ 1) →
      (∃ m ∈ item.members, db.cwe_nodes.filter
        (fun n => n.isWeakness && n.cwe_id == m) = []) →
      processCategoryItem db version parentId item =
        .error "ValueError: CWE weakness not found") := by
  refine ⟨?_, ?_, ?_⟩
  · intro c hc
    simp only [processCategoryItem, hc]
  · intro hnil hres
    simp only [processCategoryItem, hnil]
    rw [addMemberEdges_resolves]
    · simp [List.filter_append, CweNode.isWeakness, List.append_assoc]
    · intro m hm
      have := hres m hm
      simpa [List.filter_append, CweNode.isWeakness] using this
  · intro hnil hle hex
    simp only [processCategoryItem, hnil]
    apply addMemberEdges_missing
    · intro m hm
      have := hle m hm
      simpa [List.filter_append, CweNode.isWeakness] using this
    · rcases hex with ⟨m, hm, hme⟩
      refine ⟨m, hm, ?_⟩
      simpa [List.filter_append, CweNode.isWeakness] using hme

/-- A category entry whose only member is CWE-79. -/
def c5item : CweCategoryItem :=
  { cwe_id := 1019, name := "Validate Inputs", status := .draft,
    summary := "Summary", mapping := .allowed, members := [79] }

/-- Witness for C5: importing the category into `dbC4` creates the node,
the view edge and the `belongs_to` edge from the weakness. -/
theorem category_import_skip_or_create_witness :
    processCategoryItem dbC4 4 1 c5item =
      .ok { dbC4 with
        cwe_nodes := dbC4.cwe_nodes ++
          [{ id := 2, cwe_id := 1019, name := "Validate Inputs",
             version := some 4, mapping := .allowed,
             data := .category .draft "Summary" }],
        cwe_relationships :=
          [{ source_id := 2, destination_id := 1,
             nature := CweNatureType.member_of_primary },
           { source_id := 0, destination_id := 2,
             nature := CweNatureType.belongs_to }],
        nextId := 3 } :=
  ((category_import_skip_or_create dbC4 4 1 c5item).2.1 rfl
    (by decide)).trans (by rfl)

/-- A leaf stored with NULL priority. -/
def nullPriorityLeaf : VrtRow :=
  { id := 1, priority := none, category_id := 0, sub_category_id := none,
    variant_id := none, cvss_id := none, release_date := 1 }

/-- A leaf stored with priority 0 on the same path. -/
def zeroPriorityLeaf : VrtRow :=
  { id := 2, priority := some 0, category_id := 0, sub_category_id := none,
    variant_id := none, cvss_id := none, release_date := 1 }

/-- Database with one category and both leaves above. -/
def dbC9 : DB :=
  { emptyDB with
      vrt_categories := [{ id := 0, vrt_id := "c", name := "C",
                           release_date := 1 }],
      vrts := [nullPriorityLeaf, zeroPriorityLeaf],
      nextId := 3 }

/-- Witness for C9: looking `dbC9` up with priority 0 returns only the
NULL-priority leaf; the row actually stored with priority 0 is
unreachable. -/
theorem get_vrt_priority_zero_is_null_witness :
    nullPriorityLeaf.priority = none ∧
    nullPriorityLeaf.priority ≠ some 0 :=
  ⟨(get_vrt_priority_zero_is_null dbC9 (some "c") none none).2.1
      [nullPriorityLeaf] rfl nullPriorityLeaf (by decide),
   (get_vrt_priority_zero_is_null dbC9 (some "c") none none).2.2
      [nullPriorityLeaf] nullPriorityLeaf rfl (by decide)⟩

end Guardian
